import Mathlib

/-!
Verification of the query/filter/ingest orchestration logic of the
News_Analyzer frontend (src/frontend/src/App.js), via a shallow embedding.

The React component keeps six pieces of state (articles, loading,
searchQuery, filters, ingesting, ingestStatus) and mutates them through the
handlers fetchArticles, ingestArticles, handleSearch and handleFilterChange.
We model each handler as a pure function from the pre-state (plus the
network outcome, which the browser supplies asynchronously) to the
post-state together with the list of search requests the handler issued.
JSX rendering fragments relevant to the claims (the ingest button, the
entity tag list, the sentiment/bias badges) are modelled as functions
producing the rendered text children, following the React child-rendering
rules: strings and numbers render as text (the number 0 renders as "0"),
while undefined and false render nothing.
-/

/-- An entity tag attached to an article, as delivered by the backend:
`{name, type}`. -/
structure Entity where
  name : String
  type : String
deriving DecidableEq, Repr

/-- The fields of a backend article used by the rendering code under
verification.  Optional fields model JS properties that may be absent
(absent = `none`); numeric scores are modelled as rationals. -/
structure Article where
  sentiment_overall : Option String := none
  sentiment_score : Option ℚ := none
  bias_overall : Option String := none
  bias_score : Option ℚ := none
  entities : Option (List Entity) := none
deriving DecidableEq, Repr

/-- The filter record `{language, sentiment, bias}` held in the `filters`
state; the empty string means "no constraint". -/
structure FilterSelection where
  language : String
  sentiment : String
  bias : String
deriving DecidableEq, Repr

/-- The body of a parsed search response: a JSON object that may or may not
carry a `results` array. -/
structure SearchBody where
  results : Option (List Article)
deriving DecidableEq, Repr

/-- The body of a parsed ingest response: may carry `indexed` (count) and
`error` (message) fields. -/
structure IngestBody where
  indexed : Option Int := none
  error : Option String := none
deriving DecidableEq, Repr

/-- The component state of App: articles, loading, searchQuery, filters,
ingesting, ingestStatus (in source order). -/
structure QueryState where
  articles : List Article
  loading : Bool
  searchQuery : String
  filters : FilterSelection
  ingesting : Bool
  ingestStatus : Option IngestBody
deriving DecidableEq, Repr

/-- The state created by the useState initializers at mount. -/
def initialState : QueryState :=
  { articles := []
    loading := false
    searchQuery := ""
    filters := { language := "", sentiment := "", bias := "" }
    ingesting := false
    ingestStatus := none }

/-- Outcome of one `fetch` + `response.json()` round trip for a search
request, as observed by the await points in fetchArticles. -/
inductive FetchOutcome
  | ok (body : SearchBody)
  | fetchFail
  | parseFail
deriving DecidableEq, Repr

/-- Outcome of the ingest round trip in ingestArticles: either a parsed
status object or a rejection of the fetch/json step. -/
inductive IngestOutcome
  | ok (data : IngestBody)
  | failure
deriving DecidableEq, Repr

/-- JS truthiness of a string-valued JS expression that may be undefined:
`undefined` and the empty string are falsy. -/
def jsTruthyStr : Option String → Bool
  | none => false
  | some s => s ≠ ""

/-- The URLSearchParams built by fetchArticles (App.js lines 20-25): append
`q` when the query is truthy, each filter when its value is truthy, and
always `size=20`, in that order. -/
def buildSearchParams (query : String) (currentFilters : FilterSelection) :
    List (String × String) :=
  (if query ≠ "" then [("q", query)] else []) ++
  (if currentFilters.language ≠ "" then [("language", currentFilters.language)] else []) ++
  (if currentFilters.sentiment ≠ "" then [("sentiment", currentFilters.sentiment)] else []) ++
  (if currentFilters.bias ≠ "" then [("bias", currentFilters.bias)] else []) ++
  [("size", "20")]

/-- One search request issued to GET /articles/search: the query and filter
arguments together with the parameter list built from them. -/
structure SearchCall where
  query : String
  filters : FilterSelection
  params : List (String × String)
deriving DecidableEq, Repr

/-- Record of the request fetchArticles issues for given arguments. -/
def mkSearchCall (query : String) (currentFilters : FilterSelection) : SearchCall :=
  { query := query, filters := currentFilters
    params := buildSearchParams query currentFilters }

/-- fetchArticles (App.js lines 17-53): set loading, issue the request; on
a parsed body replace `articles` with `body.results || []`; if fetch or
json rejects, the catch block sets `articles` to `[]`; finally clear
loading.  Returns the post-state and the single request issued.  The
function is total (it returns a plain state, never an exception), which is
the model of the catch swallowing every failure. -/
def fetchArticles (query : String) (currentFilters : FilterSelection)
    (out : FetchOutcome) (s : QueryState) : QueryState × List SearchCall :=
  let s1 := { s with loading := true }
  let call := mkSearchCall query currentFilters
  match out with
  | .ok body =>
      ({ s1 with articles := body.results.getD [], loading := false }, [call])
  | .fetchFail =>
      ({ s1 with articles := [], loading := false }, [call])
  | .parseFail =>
      ({ s1 with articles := [], loading := false }, [call])

/-- ingestArticles (App.js lines 56-77): set ingesting, clear ingestStatus,
POST /ingest/run; on a parsed status set ingestStatus to it and, when
`!data.error` (JS truthiness), await fetchArticles(searchQuery, filters);
on rejection set the synthetic error status; finally clear ingesting.
The search outcome `sout` is consumed only when the refresh fires. -/
def ingestArticles (s : QueryState) (out : IngestOutcome)
    (sout : FetchOutcome) : QueryState × List SearchCall :=
  let s1 := { s with ingesting := true, ingestStatus := none }
  match out with
  | .ok data =>
      let s2 := { s1 with ingestStatus := some data }
      if jsTruthyStr data.error then
        ({ s2 with ingesting := false }, [])
      else
        let r := fetchArticles s.searchQuery s.filters sout s2
        ({ r.1 with ingesting := false }, r.2)
  | .failure =>
      ({ s1 with
          ingestStatus := some { indexed := none, error := some "Failed to ingest articles" }
          ingesting := false }, [])

/-- The three keys of the filters record. -/
inductive FilterField
  | language
  | sentiment
  | bias
deriving DecidableEq, Repr

/-- Read one field of a FilterSelection. -/
def getFilter (f : FilterSelection) : FilterField → String
  | .language => f.language
  | .sentiment => f.sentiment
  | .bias => f.bias

/-- The spread-update `{...filters, [filterType]: value}` of App.js line 87. -/
def setFilter (f : FilterSelection) : FilterField → String → FilterSelection
  | .language, v => { f with language := v }
  | .sentiment, v => { f with sentiment := v }
  | .bias, v => { f with bias := v }

/-- handleFilterChange (App.js lines 86-91): build the updated filter
record, store it, and call fetchArticles with the current searchQuery and
the updated filters. -/
def handleFilterChange (filterType : FilterField) (value : String)
    (out : FetchOutcome) (s : QueryState) : QueryState × List SearchCall :=
  let newFilters := setFilter s.filters filterType value
  fetchArticles s.searchQuery newFilters out { s with filters := newFilters }

/-! ## Rendering model

JSX expression children are rendered by React as follows: a string renders
as itself, a number renders as its decimal text (so the number 0 renders as
the text "0"), while `undefined`, `null`, `true` and `false` render
nothing.  We model the JS values that occur in the relevant expressions and
this child-rendering rule. -/

/-- A JS value occurring in the rendered expressions under study. -/
inductive JsVal
  | vundef
  | vnum (q : ℚ)
  | vstr (s : String)
deriving DecidableEq, Repr

/-- JS truthiness: undefined is falsy, a number is truthy iff nonzero, a
string is truthy iff non-empty. -/
def JsVal.truthy : JsVal → Bool
  | .vundef => false
  | .vnum q => q ≠ 0
  | .vstr s => s ≠ ""

/-- The JS `&&` operator: returns the right operand when the left is
truthy, otherwise the left operand itself. -/
def jsAnd (a b : JsVal) : JsVal :=
  if a.truthy then b else a

/-- A JS property holding a number or absent. -/
def ofOptNum : Option ℚ → JsVal
  | none => .vundef
  | some q => .vnum q

/-- Decimal text of a rational as JS prints an integral number; only
integral values occur in the rendered positions we verify. -/
def jsNumToString (q : ℚ) : String :=
  if q.den = 1 then toString q.num else toString q

/-- The text React renders for one expression child. -/
def reactChild : JsVal → List String
  | .vundef => []
  | .vnum q => [jsNumToString q]
  | .vstr s => [s]

/-- JS `a || b` for a possibly-absent string `a` with a string default, as
in `article.sentiment_overall || "Unknown"`. -/
def jsOrStr (a : Option String) (b : String) : String :=
  match a with
  | none => b
  | some s => if s ≠ "" then s else b

/-- Number.prototype.toFixed(1): one decimal digit, rounding to nearest. -/
def toFixed1 (q : ℚ) : String :=
  let n : ℤ := ⌊q * 10 + 1 / 2⌋
  toString (n / 10) ++ "." ++ toString (n.natAbs % 10)

/-- The text children of the sentiment badge (App.js lines 228-231):
"Sentiment: ", then `sentiment_overall || "Unknown"`, then the child
`sentiment_score && " (<pct>%)"`. -/
def sentimentBadge (a : Article) : List String :=
  ["Sentiment: ", jsOrStr a.sentiment_overall "Unknown"] ++
  reactChild (jsAnd (ofOptNum a.sentiment_score)
    (.vstr (" (" ++ toFixed1 (a.sentiment_score.getD 0 * 100) ++ "%)")))

/-- The text children of the bias badge (App.js lines 232-235). -/
def biasBadge (a : Article) : List String :=
  ["Bias: ", jsOrStr a.bias_overall "Unknown"] ++
  reactChild (jsAnd (ofOptNum a.bias_score)
    (.vstr (" (" ++ toFixed1 (a.bias_score.getD 0 * 100) ++ "%)")))

/-- The rendered text of one entity tag: `{entity.name} ({entity.type})`
(App.js lines 257-261). -/
def entityTagText (e : Entity) : String :=
  e.name ++ " (" ++ e.type ++ ")"

/-- The rendered entities block of one article card. -/
structure EntitiesSection where
  tags : List String
  moreTag : Option String
deriving DecidableEq, Repr

/-- The entities block (App.js lines 253-269): rendered only when
`article.entities && article.entities.length > 0`; shows
`entities.slice(0, 6)` as tags and, when `entities.length > 6`, an extra
`+N more` tag. -/
def renderEntities (entities : Option (List Entity)) : Option EntitiesSection :=
  match entities with
  | none => none
  | some es =>
      if es.length > 0 then
        some { tags := (es.take 6).map entityTagText
               moreTag :=
                 if es.length > 6 then
                   some ("+" ++ toString (es.length - 6) ++ " more")
                 else none }
      else none

/-- The ingest button as rendered (App.js lines 99-117): while `loading`
the whole tree is replaced by the loading placeholder (no button); else the
button carries `disabled={ingesting}` and the matching label. -/
structure ButtonView where
  disabledAttr : Bool
  label : String
deriving DecidableEq, Repr

/-- Render of the header ingest button from the loading/ingesting flags. -/
def renderIngestButton (loading ingesting : Bool) : Option ButtonView :=
  if loading then none
  else some { disabledAttr := ingesting
              label := if ingesting then "Ingesting..." else "Ingest New Articles" }

/-! ## Trace model for the ingest-button path

To reason about how many ingest requests can be outstanding at once, the
atomic ingest model above is split at its await point: a click starts an
ingest (setIngesting(true) runs synchronously before the request), and the
request later resolves (the handler ends with setIngesting(false)).  A
click reaches the handler only if the button is rendered (not loading) and
not disabled; searches may toggle `loading` arbitrarily in between.  Only
ingestArticles writes `ingesting` in App.js, which the step relation
reflects. -/

/-- The flags relevant to the ingest-button path, plus the number of ingest
requests started and not yet resolved. -/
structure IngestTraceState where
  loading : Bool
  ingesting : Bool
  outstanding : Nat
deriving DecidableEq, Repr

/-- One UI event on the ingest-button path. -/
inductive UIStep : IngestTraceState → IngestTraceState → Prop
  | clickIngest (s : IngestTraceState)
      (hrendered : (renderIngestButton s.loading s.ingesting).isSome = true)
      (henabled : s.ingesting = false) :
      UIStep s { s with ingesting := true, outstanding := s.outstanding + 1 }
  | ingestResolve (s : IngestTraceState) (h : 0 < s.outstanding) :
      UIStep s { s with ingesting := false, outstanding := s.outstanding - 1 }
  | setLoadingFlag (s : IngestTraceState) (b : Bool) :
      UIStep s { s with loading := b }

/-- States reachable from the mount state (not loading, not ingesting, no
request outstanding). -/
inductive ReachableUI : IngestTraceState → Prop
  | init : ReachableUI { loading := false, ingesting := false, outstanding := 0 }
  | step {s t : IngestTraceState} : ReachableUI s → UIStep s t → ReachableUI t

/-! ## Claims -/

/-- C1: for every query string and FilterSelection, the request built by
fetchArticles carries `q` iff the query is non-empty (with the query
verbatim), each of `language`, `sentiment`, `bias` iff the corresponding
filter value is non-empty (with that value), always carries `size=20`, and
carries no other parameters. -/
theorem C1_search_request_params (q : String) (f : FilterSelection) :
    (buildSearchParams q f).lookup "q" = (if q = "" then none else some q) ∧
    (buildSearchParams q f).lookup "language" =
      (if f.language = "" then none else some f.language) ∧
    (buildSearchParams q f).lookup "sentiment" =
      (if f.sentiment = "" then none else some f.sentiment) ∧
    (buildSearchParams q f).lookup "bias" =
      (if f.bias = "" then none else some f.bias) ∧
    (buildSearchParams q f).lookup "size" = some "20" ∧
    ∀ kv ∈ buildSearchParams q f,
      kv.1 = "q" ∨ kv.1 = "language" ∨ kv.1 = "sentiment" ∨
        kv.1 = "bias" ∨ kv.1 = "size" := by
  by_cases hq : q = "" <;> by_cases hl : f.language = "" <;>
    by_cases hs : f.sentiment = "" <;> by_cases hb : f.bias = "" <;>
    simp [buildSearchParams, hq, hl, hs, hb, List.lookup]

/-- C2: a successful search response sets the `articles` state to the
response body's `results` array unchanged and in order; a body without a
`results` key yields the empty list. -/
theorem C2_results_state (q : String) (f : FilterSelection) (s : QueryState)
    (l : List Article) :
    (fetchArticles q f (.ok { results := some l }) s).1.articles = l ∧
    (fetchArticles q f (.ok { results := none }) s).1.articles = [] := by
  constructor <;> rfl

/-- C3: whenever the fetch or the JSON decoding of a search fails, the
operation ends with `articles = []` and `loading = false`; fetchArticles is
a total function into plain states, modelling that the catch block swallows
the failure and nothing propagates to the caller. -/
theorem C3_search_failure_clears (q : String) (f : FilterSelection)
    (s : QueryState) :
    (fetchArticles q f .fetchFail s).1.articles = [] ∧
    (fetchArticles q f .fetchFail s).1.loading = false ∧
    (fetchArticles q f .parseFail s).1.articles = [] ∧
    (fetchArticles q f .parseFail s).1.loading = false := by
  refine ⟨rfl, rfl, rfl, rfl⟩

/-- C4 counterexample: the claim says a follow-up search is issued iff the
status object carries no `error` field.  The code tests `!data.error`
(JS truthiness), so the status `{error: ""}` carries an `error` field and
still triggers the follow-up search. -/
theorem C4_counterexample :
    ({ indexed := none, error := some "" } : IngestBody).error ≠ none ∧
    (ingestArticles initialState
        (.ok { indexed := none, error := some "" })
        (.ok { results := none })).2 ≠ [] := by
  constructor
  · simp
  · simp [ingestArticles, jsTruthyStr, fetchArticles, initialState]

/-- C4 (amended): the status object is recorded in ingestStatus, and the
single follow-up search with the current query and filters is issued iff
the `error` field is JS-falsy, i.e. absent or the empty string; a non-empty
error string suppresses the search. -/
theorem C4_ingest_refresh (s : QueryState) (data : IngestBody)
    (sout : FetchOutcome) :
    (ingestArticles s (.ok data) sout).1.ingestStatus = some data ∧
    (ingestArticles s (.ok data) sout).2 =
      (if data.error = none ∨ data.error = some "" then
        [mkSearchCall s.searchQuery s.filters]
      else []) := by
  rcases data with ⟨i, e⟩
  rcases e with _ | e
  · rcases sout with body | _ | _ <;>
      simp [ingestArticles, jsTruthyStr, fetchArticles]
  · by_cases he : e = "" <;> rcases sout with body | _ | _ <;>
      simp [ingestArticles, jsTruthyStr, he, fetchArticles]

/-- C5: a transport failure during ingest records the synthetic status
{error: "Failed to ingest articles"}, and every ingest invocation ends
with `ingesting = false` regardless of outcome. -/
theorem C5_ingest_failure_status (s : QueryState) (out : IngestOutcome)
    (sout : FetchOutcome) :
    (ingestArticles s .failure sout).1.ingestStatus =
      some { indexed := none, error := some "Failed to ingest articles" } ∧
    (ingestArticles s out sout).1.ingesting = false := by
  constructor
  · rfl
  · rcases out with data | _
    · by_cases h : jsTruthyStr data.error <;>
        simp [ingestArticles, h, fetchArticles]
    · rfl

/-- C6: handleFilterChange sets exactly the named filter field to the new
value, leaves the other two fields and the query string unchanged, and
issues exactly one search carrying the updated filters with the current
query. -/
theorem C6_filter_change (field : FilterField) (v : String)
    (out : FetchOutcome) (s : QueryState) :
    (∀ g : FilterField,
      getFilter (handleFilterChange field v out s).1.filters g =
        if g = field then v else getFilter s.filters g) ∧
    (handleFilterChange field v out s).1.searchQuery = s.searchQuery ∧
    (handleFilterChange field v out s).2 =
      [mkSearchCall s.searchQuery (setFilter s.filters field v)] := by
  refine ⟨?_, ?_, ?_⟩
  · intro g
    cases out <;> cases field <;> cases g <;>
      simp [handleFilterChange, fetchArticles, setFilter, getFilter]
  · cases out <;> simp [handleFilterChange, fetchArticles]
  · cases out <;> simp [handleFilterChange, fetchArticles]

/-- C7: ingest never writes `articles` itself: when no follow-up search is
issued the `articles` state is unchanged, and in every case the final
`articles` state is either the pre-state's or exactly what the follow-up
fetchArticles call produces. -/
theorem C7_ingest_frame (s : QueryState) (out : IngestOutcome)
    (sout : FetchOutcome) :
    ((ingestArticles s out sout).2 = [] →
      (ingestArticles s out sout).1.articles = s.articles) ∧
    ((ingestArticles s out sout).1.articles = s.articles ∨
      (ingestArticles s out sout).1.articles =
        (fetchArticles s.searchQuery s.filters sout s).1.articles) := by
  rcases out with data | _
  · by_cases h : jsTruthyStr data.error
    · constructor
      · intro _
        simp [ingestArticles, h]
      · left
        simp [ingestArticles, h]
    · constructor
      · intro hcalls
        exfalso
        rcases sout with body | _ | _ <;>
          simp [ingestArticles, h, fetchArticles] at hcalls
      · right
        rcases sout with body | _ | _ <;>
          simp [ingestArticles, h, fetchArticles]
  · exact ⟨fun _ => rfl, Or.inl rfl⟩

/-- C7 witness: an ingest whose transport fails issues no search and leaves
`articles` untouched. -/
theorem C7_ingest_frame_witness :
    (ingestArticles initialState .failure (.ok { results := none })).1.articles =
      initialState.articles :=
  (C7_ingest_frame initialState .failure (.ok { results := none })).1 rfl

/-- Inductive invariant of the ingest-button path: the number of
outstanding ingest requests is 1 exactly while `ingesting` is set, else 0. -/
lemma reachableUI_outstanding {s : IngestTraceState} (h : ReachableUI s) :
    s.outstanding = if s.ingesting then 1 else 0 := by
  induction h with
  | init => rfl
  | @step t u hr hstep ih =>
      cases hstep with
      | clickIngest hrendered henabled =>
          simp [henabled] at ih
          simp [ih]
      | ingestResolve hpos =>
          by_cases hi : t.ingesting
          · rw [if_pos hi] at ih
            simp [ih]
          · rw [if_neg hi] at ih
            simp
            omega
      | setLoadingFlag b =>
          simpa using ih

/-- C8: in every UI state reachable through the ingest-button path, at most
one ingest request is outstanding, and while `ingesting` is set the button,
when rendered at all, carries the disabled attribute. -/
theorem C8_ingest_button_guard (s : IngestTraceState) (h : ReachableUI s) :
    s.outstanding ≤ 1 ∧
    (s.ingesting = true →
      renderIngestButton s.loading s.ingesting =
        if s.loading then none
        else some { disabledAttr := true, label := "Ingesting..." }) := by
  have hinv := reachableUI_outstanding h
  constructor
  · split at hinv <;> omega
  · intro hi
    by_cases hl : s.loading <;> simp [renderIngestButton, hl, hi]

/-- C8 witness: the state reached by one click on the enabled button has
one outstanding request and a disabled button. -/
theorem C8_ingest_button_guard_witness :
    ({ loading := false, ingesting := true, outstanding := 1 } :
        IngestTraceState).outstanding ≤ 1 ∧
    (({ loading := false, ingesting := true, outstanding := 1 } :
        IngestTraceState).ingesting = true →
      renderIngestButton false true =
        if false then none
        else some { disabledAttr := true, label := "Ingesting..." }) :=
  C8_ingest_button_guard
    { loading := false, ingesting := true, outstanding := 1 }
    (ReachableUI.step ReachableUI.init
      (UIStep.clickIngest
        { loading := false, ingesting := false, outstanding := 0 } rfl rfl))

/-- C9: an article with a non-empty entities list renders the entities
block with exactly the first six entities (in order) as tags and, when more
than six exist, a "+N more" marker for the N hidden ones; an absent or
empty entities list renders no block. -/
theorem C9_entities_block (es : List Entity) (hne : es ≠ []) :
    renderEntities none = none ∧
    renderEntities (some []) = none ∧
    renderEntities (some es) =
      some { tags := (es.map entityTagText).take 6
             moreTag :=
               if 6 < es.length then
                 some ("+" ++ toString (es.length - 6) ++ " more")
               else none } ∧
    ((es.map entityTagText).take 6).length ≤ 6 := by
  have hlen : 0 < es.length := List.length_pos.mpr hne
  refine ⟨rfl, rfl, ?_, ?_⟩
  · simp only [renderEntities, hlen, gt_iff_lt, if_pos, List.map_take]
  · simp only [List.length_take]
    omega

/-- A seven-entity list exercising the truncation and the more-marker. -/
def entsSeven : List Entity :=
  [{ name := "A", type := "ORG" }, { name := "B", type := "ORG" },
   { name := "C", type := "PER" }, { name := "D", type := "PER" },
   { name := "E", type := "LOC" }, { name := "F", type := "LOC" },
   { name := "G", type := "MISC" }]

/-- C9 witness: with seven entities, six tags and a "+1 more" marker. -/
theorem C9_entities_block_witness :
    renderEntities (some entsSeven) =
      some { tags := (entsSeven.map entityTagText).take 6
             moreTag :=
               if 6 < entsSeven.length then
                 some ("+" ++ toString (entsSeven.length - 6) ++ " more")
               else none } :=
  (C9_entities_block entsSeven (by decide)).2.2.1

/-- An article whose sentiment score is exactly 0. -/
def artScoreZero : Article :=
  { sentiment_overall := some "positive"
    sentiment_score := some 0
    bias_overall := some "neutral"
    bias_score := some 0
    entities := none }

/-- C10 counterexample: an article with `sentiment_score = 0` is NOT
rendered identically to one with the score absent.  The JSX child
`{article.sentiment_score && "..."}` evaluates to the number 0, which React
renders as the text "0", while an absent score renders nothing. -/
theorem C10_counterexample :
    sentimentBadge artScoreZero ≠
      sentimentBadge { artScoreZero with sentiment_score := none } ∧
    sentimentBadge artScoreZero = ["Sentiment: ", "positive", "0"] ∧
    sentimentBadge { artScoreZero with sentiment_score := none } =
      ["Sentiment: ", "positive"] := by
  refine ⟨?_, by decide, by decide⟩
  decide

/-- C10 (amended): the percentage figure appears in the sentiment and bias
badges exactly when the corresponding score is present and nonzero; an
absent score renders nothing in its place, but a score of exactly 0
renders the literal text "0" there (React renders the number 0), so the
zero-score badge differs from the absent-score badge by that extra text
node. -/
theorem C10_score_badges (a : Article) :
    (a.sentiment_score = none →
      sentimentBadge a = ["Sentiment: ", jsOrStr a.sentiment_overall "Unknown"]) ∧
    (a.sentiment_score = some 0 →
      sentimentBadge a =
        ["Sentiment: ", jsOrStr a.sentiment_overall "Unknown", "0"]) ∧
    (∀ q : ℚ, a.sentiment_score = some q → q ≠ 0 →
      sentimentBadge a =
        ["Sentiment: ", jsOrStr a.sentiment_overall "Unknown",
         " (" ++ toFixed1 (q * 100) ++ "%)"]) ∧
    (a.bias_score = none →
      biasBadge a = ["Bias: ", jsOrStr a.bias_overall "Unknown"]) ∧
    (a.bias_score = some 0 →
      biasBadge a = ["Bias: ", jsOrStr a.bias_overall "Unknown", "0"]) ∧
    (∀ q : ℚ, a.bias_score = some q → q ≠ 0 →
      biasBadge a =
        ["Bias: ", jsOrStr a.bias_overall "Unknown",
         " (" ++ toFixed1 (q * 100) ++ "%)"]) := by
  refine ⟨?_, ?_, ?_, ?_, ?_, ?_⟩
  · intro h
    simp [sentimentBadge, h, ofOptNum, jsAnd, JsVal.truthy, reactChild]
  · intro h
    have hz : jsNumToString 0 = "0" := by decide
    simp [sentimentBadge, h, ofOptNum, jsAnd, JsVal.truthy, reactChild, hz]
  · intro q hq hne
    simp [sentimentBadge, hq, ofOptNum, jsAnd, JsVal.truthy, reactChild, hne]
  · intro h
    simp [biasBadge, h, ofOptNum, jsAnd, JsVal.truthy, reactChild]
  · intro h
    have hz : jsNumToString 0 = "0" := by decide
    simp [biasBadge, h, ofOptNum, jsAnd, JsVal.truthy, reactChild, hz]
  · intro q hq hne
    simp [biasBadge, hq, ofOptNum, jsAnd, JsVal.truthy, reactChild, hne]

/-- C10 witness: the three sentiment cases evaluated on concrete articles
(score one half, score zero, score absent). -/
theorem C10_score_badges_witness :
    sentimentBadge { artScoreZero with sentiment_score := some (1 / 2) } =
      ["Sentiment: ", "positive", " (" ++ toFixed1 (1 / 2 * 100) ++ "%)"] ∧
    sentimentBadge artScoreZero = ["Sentiment: ", "positive", "0"] ∧
    biasBadge { artScoreZero with bias_score := none } =
      ["Bias: ", "neutral"] :=
  ⟨(C10_score_badges { artScoreZero with sentiment_score := some (1 / 2) }).2.2.1
      (1 / 2) rfl (by norm_num),
   (C10_score_badges artScoreZero).2.1 rfl,
   (C10_score_badges { artScoreZero with bias_score := none }).2.2.2.1 rfl⟩

/-- C1 witness: a concrete query with only the language filter set carries
`q` verbatim, and the pair ("q", "modi") is among the allowed keys. -/
theorem C1_search_request_params_witness :
    (buildSearchParams "modi"
        { language := "hi", sentiment := "", bias := "" }).lookup "q" =
      (if "modi" = "" then none else some "modi") ∧
    (("q", "modi").1 = "q" ∨ ("q", "modi").1 = "language" ∨
      ("q", "modi").1 = "sentiment" ∨ ("q", "modi").1 = "bias" ∨
      ("q", "modi").1 = "size") :=
  ⟨(C1_search_request_params "modi"
      { language := "hi", sentiment := "", bias := "" }).1,
   (C1_search_request_params "modi"
      { language := "hi", sentiment := "", bias := "" }).2.2.2.2.2
     ("q", "modi") (by decide)⟩
